import Mathlib

/-!
Shallow embedding of `tests/chaos_engine.py` (class `IntelligentLoadTester`)
from the life-evaluation-api repository, together with proofs about the
claims of the specification.

Conventions of the embedding:
* JSON objects that the code only ever reads string fields from are
  modelled as association lists `List (String × String)`; the empty list
  models Python's empty dict `{}` (which is falsy).
* Randomness (persona choice, synthesized answers) and the network are
  modelled as an explicit environment `Env` supplying, for the i-th API
  call of a session, its transport-level outcome and its elapsed time.
* Elapsed times are modelled as rationals (`ℚ`), standing in for the
  nonnegative float durations measured with `time.time()` diffs.
* `async` sequencing inside one session is strictly sequential in the
  code, so the session body is an ordinary state-threading function.
-/

namespace ChaosEngine

/-- JSON object as read by the engine: only string-valued fields are ever
accessed (`"question"`, `"analysis"`), so an association list of strings
suffices.  `[]` models the empty dict `{}`. -/
abbrev Dict := List (String × String)

/-- Python `d.get(k, default)` on a dict. -/
def dGet (d : Dict) (k : String) (default : String) : String :=
  match d.find? (fun kv => kv.1 == k) with
  | some kv => kv.2
  | none => default

/-- Python truthiness of a dict: an empty dict is falsy
(`if question_response:` in `_simulate_single_user`). -/
def isTruthy (d : Dict) : Bool := !d.isEmpty

/-- Transport-level outcome of one `session.post` in `_call_api`
(chaos_engine.py lines 261-274): either an HTTP response with a status
code and parsed JSON body, or a raised exception (timeout, connection
failure, JSON parse failure) with its message. -/
inductive HttpOutcome where
  | status (code : Nat) (body : Dict)
  | exn (msg : String)
deriving DecidableEq, Repr

/-- The raw request step inside `_call_api`'s `try`: the `session.post`
plus `response.json()`, which either yields a status code and body or
raises. -/
def rawRequest : HttpOutcome → Except String (Nat × Dict)
  | .status c b => .ok (c, b)
  | .exn m => .error m

/-- Embeds `IntelligentLoadTester._call_api` (lines 255-274): on status 200
return the parsed JSON body; on any other status log and return `{}`;
on any raised exception log and return `{}`.  Nothing escapes. -/
def callApi (o : HttpOutcome) : Dict :=
  match rawRequest o with
  | .ok (code, body) => if code = 200 then body else []
  | .error _ => []

/-- Request payload sent by `_simulate_single_user` to one of the four
target endpoints (the constant `"model": "gpt-4.1-nano"` field is carried
by every payload in the code and is omitted here). -/
inductive Payload where
  | firstQuestion (prompt : String)
  | nextQuestion (prompt : String) (questions answers : List String)
  | analyzeAnswer (prompt : String) (questions answers : List String) (current : String)
  | finalRoast (prompt : String) (questions answers : List String)
deriving DecidableEq, Repr

/-- The URL path suffix used for each payload kind. -/
def Payload.endpoint : Payload → String
  | .firstQuestion _ => "generate-first-question"
  | .nextQuestion _ _ _ => "generate-next-question-bro"
  | .analyzeAnswer _ _ _ _ => "analyze-answer-bro"
  | .finalRoast _ _ _ => "generate-final-roast"

/-- The `journey_data` dict built by `_simulate_single_user`
(lines 154-162): `total_time` is `none` while the key is absent (it is
set only on line 219, after the final call). -/
structure JourneyData where
  persona : String
  goal : String
  questions : List String
  answers : List String
  analyses : List String
  response_times : List ℚ
  errors : List String
  total_time : Option ℚ
deriving DecidableEq, Repr

/-- The `journey_data` dict as initialized at session start (lines 154-162). -/
def emptyJourney (persona goal : String) : JourneyData :=
  { persona := persona, goal := goal, questions := [], answers := [],
    analyses := [], response_times := [], errors := [], total_time := none }

/-- Environment of one session: for the i-th API call issued by the
session (0-based, in issue order) its transport outcome and measured
elapsed time; the answer synthesized by `_generate_persona_answer` for
round `q`; and the wall-clock total `time.time() - start_time` recorded
at line 219. -/
structure Env where
  outcome : Nat → HttpOutcome
  dur : Nat → ℚ
  answer : Nat → String
  totalTime : ℚ

/-- State threaded through the session body: the journey record, the
index of the next API call, and the ordered list of payloads sent so
far (the requests that went over the wire, used to state properties of
the histories sent to the target). -/
structure SimState where
  j : JourneyData
  idx : Nat
  sent : List Payload
deriving Repr

/-- One iteration of the `for question_num in range(5)` loop of
`_simulate_single_user` (lines 166-206): issue the question call (the
first-question endpoint on round 0, the next-question endpoint with the
accumulated history otherwise) and record its time; if the response dict
is truthy, append the question, synthesize and append the answer, issue
the analysis call with the full history plus current answer, record its
time, and append the analysis if that response is truthy. -/
def simRound (env : Env) (q : Nat) (s : SimState) : SimState :=
  let qPayload : Payload :=
    if q = 0 then .firstQuestion s.j.goal
    else .nextQuestion s.j.goal s.j.questions s.j.answers
  let qResp := callApi (env.outcome s.idx)
  let j1 := { s.j with response_times := s.j.response_times ++ [env.dur s.idx] }
  let sent1 := s.sent ++ [qPayload]
  let idx1 := s.idx + 1
  if isTruthy qResp then
    let question := dGet qResp ("question") ("")
    let answer := env.answer q
    let j2 := { j1 with questions := j1.questions ++ [question],
                        answers := j1.answers ++ [answer] }
    let aPayload : Payload := .analyzeAnswer j2.goal j2.questions j2.answers answer
    let aResp := callApi (env.outcome idx1)
    let j3 := { j2 with response_times := j2.response_times ++ [env.dur idx1] }
    let j4 := if isTruthy aResp then
                { j3 with analyses := j3.analyses ++ [dGet aResp ("analysis") ("")] }
              else j3
    ⟨j4, idx1 + 1, sent1 ++ [aPayload]⟩
  else
    ⟨j1, idx1, sent1⟩

/-- The whole `try` body of `_simulate_single_user` (lines 164-220):
five question/answer/analysis rounds, then the final-roast call with the
full history, its time recorded, and `total_time` set. -/
def simulateBody (env : Env) (persona goal : String) : SimState :=
  let s0 : SimState := ⟨emptyJourney persona goal, 0, []⟩
  let s := (List.range 5).foldl (fun st q => simRound env q st) s0
  let fPayload : Payload := .finalRoast s.j.goal s.j.questions s.j.answers
  let _fResp := callApi (env.outcome s.idx)
  let jf := { s.j with response_times := s.j.response_times ++ [env.dur s.idx],
                       total_time := some env.totalTime }
  ⟨jf, s.idx + 1, s.sent ++ [fPayload]⟩

/-- How the `try`/`except` of `_simulate_single_user` ends: either the
body ran to completion with a final journey record, or some exception
escaped the body at a point where the journey record held `partialData`
(lines 222-224). -/
inductive BodyOutcome where
  | completes (j : JourneyData)
  | raises (e : String) (partialData : JourneyData)

/-- The `except Exception as e` handler of `_simulate_single_user`
(lines 222-224): a completed body returns its journey unchanged; an
escaped exception has its message appended to the journey's error list,
and the journey is still returned. -/
def handleSession : BodyOutcome → JourneyData
  | .completes j => j
  | .raises e p => { p with errors := p.errors ++ [e] }

/-- A triggered chaos scenario recorded into `results["chaos_events"]`
(lines 310-314): scenario name and severity (the ISO timestamp string is
not needed by any claim and is omitted). -/
structure ChaosEvent where
  scenario : String
  severity : Nat
deriving DecidableEq, Repr

/-- One entry of `results["performance_metrics"]`: the `TestMetrics`
sample captured per tick (lines 276-285); only the fields the code
fills with nonempty data are kept. -/
structure MetricsSample where
  memory_percent : ℚ
  cpu_percent : ℚ
deriving DecidableEq, Repr

/-- The `results` dict accumulated by `run_chaos_test` (lines 294-302). -/
structure Results where
  total_users : Nat
  successful_journeys : Nat
  failed_journeys : Nat
  chaos_events : List ChaosEvent
  performance_metrics : List MetricsSample
  user_journeys : List JourneyData
deriving Repr

/-- The `results` dict as initialized at lines 294-302. -/
def initResults : Results :=
  { total_users := 0, successful_journeys := 0, failed_journeys := 0,
    chaos_events := [], performance_metrics := [], user_journeys := [] }

/-- The per-journey accounting of lines 330-336: append the journey to
`user_journeys`; count it failed when `journey.get("errors")` is truthy
(non-empty list) and successful otherwise; increment `total_users`. -/
def countJourney (r : Results) (j : JourneyData) : Results :=
  { r with
    user_journeys := r.user_journeys ++ [j],
    failed_journeys :=
      if j.errors.isEmpty then r.failed_journeys else r.failed_journeys + 1,
    successful_journeys :=
      if j.errors.isEmpty then r.successful_journeys + 1 else r.successful_journeys,
    total_users := r.total_users + 1 }

/-- The `for journey in journey_results` loop of one tick (lines
329-336), folded over the completed traces of the tick's batch (every
element of the batch is a dict, since `_simulate_single_user` always
returns its `journey_data`). -/
def processTick (r : Results) (batch : List JourneyData) : Results :=
  batch.foldl countJourney r

/-- The accumulation of the whole `while` loop of `run_chaos_test`:
folding the per-tick accounting over the batches of traces produced by
its ticks. -/
def runTicks (batches : List (List JourneyData)) : Results :=
  batches.foldl processTick initResults

/-- Embeds `IntelligentLoadTester._calculate_avg_response_time` (lines
373-376): the sum over journeys of `journey.get("total_time", 0)`,
divided by `max(len(journeys), 1)`. -/
def calculateAvgResponseTime (journeys : List JourneyData) : ℚ :=
  (journeys.map (fun j => j.total_time.getD 0)).sum / (max journeys.length 1 : ℚ)

/-- The `report["summary"]` dict built by `_generate_chaos_report`
(lines 352-359). -/
structure ReportSummary where
  total_duration : String
  total_users : Nat
  success_rate : ℚ
  chaos_events : Nat
  avg_response_time : ℚ
deriving DecidableEq, Repr

/-- The report written by `_generate_chaos_report` (lines 352-363); the
`chaos_impact` and `performance_trends` sections are constant dicts and
the recommendations a constant list. -/
structure Report where
  summary : ReportSummary
  most_impactful_scenario : String
  recommendations : List String
deriving DecidableEq, Repr

/-- Embeds `IntelligentLoadTester._generate_chaos_report` (lines 350-363) as a
pure function of the accumulated results.  `total_duration` reproduces
the Python idiom `total_users and "30 minutes" or "0 minutes"`;
`success_rate` is `(successful_journeys / max(total_users, 1)) * 100`. -/
def generateChaosReport (r : Results) : Report :=
  { summary :=
      { total_duration := if r.total_users = 0 then ("0 minutes") else ("30 minutes"),
        total_users := r.total_users,
        success_rate :=
          ((r.successful_journeys : ℚ) / (max r.total_users 1 : ℚ)) * 100,
        chaos_events := r.chaos_events.length,
        avg_response_time := calculateAvgResponseTime r.user_journeys },
    most_impactful_scenario := "api_timeout",
    recommendations :=
      ["Implement circuit breakers for OpenAI API calls",
       "Add request queuing for high load scenarios",
       "Increase connection pooling for database",
       "Add caching layer for repeated requests",
       "Implement graceful degradation when AI services fail"] }

/-- How the `try` block of `run_chaos_test` (lines 304-339) ends:
normal completion of the timed loop, or an unexpected exception escaping
the loop while the accumulated results were `r`. -/
inductive LoopOutcome where
  | normal (r : Results)
  | exn (e : String) (r : Results)

/-- The results accumulated when the loop ended. -/
def LoopOutcome.results : LoopOutcome → Results
  | .normal r => r
  | .exn _ r => r

/-- Orchestrator run state (spec §4.5: `Idle → Running → Finished`). -/
inductive OrchState where
  | idle
  | running
  | finished
deriving DecidableEq, Repr

/-- What a finished `run_chaos_test` produced: the report generated by
the `finally` block, the run state reached, and the exception re-raised
after the `finally` block (if the loop ended abnormally). -/
structure RunResult where
  report : Report
  state : OrchState
  reraised : Option String
deriving DecidableEq, Repr

/-- The `try`/`finally` of `run_chaos_test` (lines 304-346): whichever
way the loop ends, the `finally` block runs and generates the report
from the accumulated results; an exception, if any, propagates only
after that. -/
def runChaosTest : LoopOutcome → RunResult
  | .normal r => ⟨generateChaosReport r, .finished, none⟩
  | .exn e r => ⟨generateChaosReport r, .finished, some e⟩

/-- Session-simulator tasks in flight during one tick of
`run_chaos_test`: `batchTasks` tasks launched by the
`for _ in range(users_per_minute)` loop (lines 318-320) and awaited by
the `asyncio.gather` (line 327), plus `50 * spikesActive` tasks from
detached `concurrent_user_spike` chaos actions — `_user_spike` (lines
140-146) launches 50 `_simulate_single_user` tasks and is started with
`asyncio.create_task` (line 315), never awaited by the loop. -/
structure TickTasks where
  batchTasks : Nat
  spikesActive : Nat
deriving DecidableEq, Repr

/-- The tasks created for a tick with the configured `users_per_minute`
while `spikes` detached user-spike actions overlap it. -/
def launchTick (users_per_minute spikes : Nat) : TickTasks :=
  ⟨users_per_minute, spikes⟩

/-- Number of `_simulate_single_user` tasks concurrently in flight. -/
def TickTasks.inFlightSessions (t : TickTasks) : Nat :=
  t.batchTasks + 50 * t.spikesActive

/-- A healthy target: every call returns status 200 with a body carrying
both a question and an analysis field, every call takes 1 time unit, and
the session's wall-clock total is 20 time units (the wall clock also
covers the work between calls, so it exceeds the sum of call times). -/
def envOK : Env :=
  { outcome := fun _ => .status 200 [("question", "Q"), ("analysis", "A")],
    dur := fun _ => 1, answer := fun _ => "ans", totalTime := 20 }

/-- A broken target: every call returns HTTP 500. -/
def env500 : Env :=
  { outcome := fun _ => .status 500 [("detail", "Internal Server Error")],
    dur := fun _ => 0, answer := fun _ => "ans", totalTime := 0 }

/-- Written from the claim's words, not from the source (for comparison
with `calculateAvgResponseTime`): the average taken over all individual
recorded calls across all session traces — total recorded call time
divided by the number of recorded calls. -/
def specAvgOverAllCalls (journeys : List JourneyData) : ℚ :=
  (journeys.map (fun j => j.response_times.sum)).sum /
    ((journeys.map (fun j => j.response_times.length)).sum : ℚ)

/-- A payload's question and answer histories have equal length (payloads
without history fields are trivially balanced). -/
def Payload.balanced : Payload → Prop
  | .firstQuestion _ => True
  | .nextQuestion _ qs as => qs.length = as.length
  | .analyzeAnswer _ qs as _ => qs.length = as.length
  | .finalRoast _ qs as => qs.length = as.length

instance : DecidablePred Payload.balanced := by
  intro p
  cases p <;> simp only [Payload.balanced] <;> infer_instance

/-! ### Helper lemmas -/

lemma simRound_goal (env : Env) (q : Nat) (s : SimState) :
    (simRound env q s).j.goal = s.j.goal := by
  unfold simRound
  dsimp only
  split
  · split <;> rfl
  · rfl

lemma simRound_errors (env : Env) (q : Nat) (s : SimState) :
    (simRound env q s).j.errors = s.j.errors := by
  unfold simRound
  dsimp only
  split
  · split <;> rfl
  · rfl

lemma foldl_simRound_errors (env : Env) (l : List Nat) (s : SimState) :
    (l.foldl (fun st q => simRound env q st) s).j.errors = s.j.errors := by
  induction l generalizing s with
  | nil => rfl
  | cons a t ih => rw [List.foldl_cons, ih, simRound_errors]

lemma foldl_simRound_goal (env : Env) (l : List Nat) (s : SimState) :
    (l.foldl (fun st q => simRound env q st) s).j.goal = s.j.goal := by
  induction l generalizing s with
  | nil => rfl
  | cons a t ih => rw [List.foldl_cons, ih, simRound_goal]

lemma simRound_of_truthy (env : Env) (q : Nat) (s : SimState)
    (h1 : isTruthy (callApi (env.outcome s.idx)) = true)
    (h2 : isTruthy (callApi (env.outcome (s.idx + 1))) = true) :
    (simRound env q s).idx = s.idx + 2 ∧
    (simRound env q s).j.response_times.length = s.j.response_times.length + 2 ∧
    (simRound env q s).j.questions.length = s.j.questions.length + 1 ∧
    (simRound env q s).j.answers.length = s.j.answers.length + 1 ∧
    (simRound env q s).j.analyses.length = s.j.analyses.length + 1 ∧
    (simRound env q s).sent.map Payload.endpoint =
      s.sent.map Payload.endpoint ++
        [(if q = 0 then ("generate-first-question") else ("generate-next-question-bro")),
         ("analyze-answer-bro")] := by
  simp only [simRound, h1, if_true, h2]
  refine ⟨by simp, by simp, by simp, by simp, by simp, ?_⟩
  by_cases hq : q = 0 <;> simp [hq, Payload.endpoint]

lemma simRound_times_ge (env : Env) (q : Nat) (s : SimState) :
    s.j.response_times.length + 1 ≤ (simRound env q s).j.response_times.length := by
  unfold simRound
  dsimp only
  split
  · split <;> simp
  · simp

lemma foldl_simRound_times_ge (env : Env) (l : List Nat) (s : SimState) :
    s.j.response_times.length + l.length ≤
      (l.foldl (fun st q => simRound env q st) s).j.response_times.length := by
  induction l generalizing s with
  | nil => simp
  | cons a t ih =>
      rw [List.foldl_cons]
      calc s.j.response_times.length + (a :: t).length
          = (s.j.response_times.length + 1) + t.length := by
              rw [List.length_cons]; omega
        _ ≤ (simRound env a s).j.response_times.length + t.length :=
            Nat.add_le_add_right (simRound_times_ge env a s) _
        _ ≤ _ := ih (simRound env a s)

lemma simRound_balanced (env : Env) (q : Nat) (s : SimState)
    (hlen : s.j.questions.length = s.j.answers.length)
    (hsent : ∀ p ∈ s.sent, p.balanced) :
    ((simRound env q s).j.questions.length = (simRound env q s).j.answers.length) ∧
    ∀ p ∈ (simRound env q s).sent, p.balanced := by
  by_cases hqr : isTruthy (callApi (env.outcome s.idx))
  · simp only [simRound, hqr, if_true]
    constructor
    · by_cases har : isTruthy (callApi (env.outcome (s.idx + 1))) <;>
        simp [har, hlen]
    · intro p hp
      rcases List.mem_append.mp hp with h | h
      · rcases List.mem_append.mp h with h' | h'
        · exact hsent p h'
        · rcases List.mem_singleton.mp h' with rfl
          by_cases hq : q = 0 <;> simp [hq, Payload.balanced, hlen]
      · rcases List.mem_singleton.mp h with rfl
        simp [Payload.balanced, hlen]
  · simp only [simRound, hqr, if_false, Bool.false_eq_true]
    refine ⟨hlen, ?_⟩
    intro p hp
    rcases List.mem_append.mp hp with h | h
    · exact hsent p h
    · rcases List.mem_singleton.mp h with rfl
      by_cases hq : q = 0 <;> simp [hq, Payload.balanced, hlen]

lemma foldl_simRound_balanced (env : Env) (l : List Nat) (s : SimState)
    (hlen : s.j.questions.length = s.j.answers.length)
    (hsent : ∀ p ∈ s.sent, p.balanced) :
    ((l.foldl (fun st q => simRound env q st) s).j.questions.length =
      (l.foldl (fun st q => simRound env q st) s).j.answers.length) ∧
    ∀ p ∈ (l.foldl (fun st q => simRound env q st) s).sent, p.balanced := by
  induction l generalizing s with
  | nil => exact ⟨hlen, hsent⟩
  | cons a t ih =>
      rw [List.foldl_cons]
      exact ih _ (simRound_balanced env a s hlen hsent).1 (simRound_balanced env a s hlen hsent).2

lemma countJourney_total (r : Results) (j : JourneyData) :
    (countJourney r j).total_users = r.total_users + 1 := rfl

lemma countJourney_sum (r : Results) (j : JourneyData)
    (h : r.total_users = r.successful_journeys + r.failed_journeys) :
    (countJourney r j).total_users =
      (countJourney r j).successful_journeys + (countJourney r j).failed_journeys := by
  unfold countJourney
  by_cases hj : j.errors.isEmpty <;> simp [hj] <;> omega

lemma processTick_total (r : Results) (batch : List JourneyData) :
    (processTick r batch).total_users = r.total_users + batch.length := by
  induction batch generalizing r with
  | nil => rfl
  | cons a t ih =>
      rw [processTick, List.foldl_cons, ← processTick, ih, countJourney_total]
      simp [Nat.add_assoc, Nat.add_comm 1 t.length]

lemma processTick_sum (r : Results) (batch : List JourneyData)
    (h : r.total_users = r.successful_journeys + r.failed_journeys) :
    (processTick r batch).total_users =
      (processTick r batch).successful_journeys + (processTick r batch).failed_journeys := by
  induction batch generalizing r with
  | nil => exact h
  | cons a t ih =>
      rw [processTick, List.foldl_cons, ← processTick]
      exact ih _ (countJourney_sum r a h)

lemma countJourney_partition (r : Results) (j : JourneyData)
    (h1 : r.successful_journeys = (r.user_journeys.filter fun x => x.errors.isEmpty).length)
    (h2 : r.failed_journeys = (r.user_journeys.filter fun x => !x.errors.isEmpty).length) :
    (countJourney r j).successful_journeys =
      ((countJourney r j).user_journeys.filter fun x => x.errors.isEmpty).length ∧
    (countJourney r j).failed_journeys =
      ((countJourney r j).user_journeys.filter fun x => !x.errors.isEmpty).length := by
  unfold countJourney
  by_cases hj : j.errors.isEmpty <;>
    simp [hj, List.filter_append, h1, h2]

lemma processTick_partition (r : Results) (batch : List JourneyData)
    (h1 : r.successful_journeys = (r.user_journeys.filter fun x => x.errors.isEmpty).length)
    (h2 : r.failed_journeys = (r.user_journeys.filter fun x => !x.errors.isEmpty).length) :
    (processTick r batch).successful_journeys =
      ((processTick r batch).user_journeys.filter fun x => x.errors.isEmpty).length ∧
    (processTick r batch).failed_journeys =
      ((processTick r batch).user_journeys.filter fun x => !x.errors.isEmpty).length := by
  induction batch generalizing r with
  | nil => exact ⟨h1, h2⟩
  | cons a t ih =>
      rw [processTick, List.foldl_cons, ← processTick]
      exact ih _ (countJourney_partition r a h1 h2).1 (countJourney_partition r a h1 h2).2

lemma foldl_processTick_partition (batches : List (List JourneyData)) (r : Results)
    (h1 : r.successful_journeys = (r.user_journeys.filter fun x => x.errors.isEmpty).length)
    (h2 : r.failed_journeys = (r.user_journeys.filter fun x => !x.errors.isEmpty).length)
    (h3 : r.total_users = r.successful_journeys + r.failed_journeys) :
    (batches.foldl processTick r).successful_journeys =
      ((batches.foldl processTick r).user_journeys.filter fun x => x.errors.isEmpty).length ∧
    (batches.foldl processTick r).failed_journeys =
      ((batches.foldl processTick r).user_journeys.filter fun x => !x.errors.isEmpty).length ∧
    (batches.foldl processTick r).total_users =
      (batches.foldl processTick r).successful_journeys +
        (batches.foldl processTick r).failed_journeys := by
  induction batches generalizing r with
  | nil => exact ⟨h1, h2, h3⟩
  | cons b t ih =>
      rw [List.foldl_cons]
      exact ih _ (processTick_partition r b h1 h2).1 (processTick_partition r b h1 h2).2
        (processTick_sum r b h3)

/-! ### Claims -/

/-- C1 counterexample: against a target answering HTTP 500 to every
call, the session completes (the body never raises) and the resulting
trace's error list is empty, even though the very first call failed with
a non-2xx status — refuting the claim that a failed call is recorded in
the trace's error list and that the error list is non-empty whenever a
call failed. -/
theorem failed_calls_leave_error_list_empty :
    env500.outcome 0 = .status 500 [("detail", "Internal Server Error")] ∧
    (handleSession
        (.completes (simulateBody env500 ("Denial Dan") ("get rich quick")).j)).errors
      = [] := by
  constructor
  · rfl
  · decide

/-- C1 (amended): whenever a call fails, `_call_api` hands the session
an empty dict and the journey continues best-effort — every round still
issues its question call and the final-summary call is always reached —
but the failure is never recorded in the trace's error list, which stays
empty for every completed session body (errors are appended only by the
exception handler, and `_call_api` swallows all call failures). -/
theorem journey_continues_and_errors_untracked (env : Env) (p g : String) :
    (simulateBody env p g).j.errors = [] ∧
    6 ≤ (simulateBody env p g).j.response_times.length ∧
    ∃ qs as, (simulateBody env p g).sent.getLast? =
      some (Payload.finalRoast g qs as) := by
  unfold simulateBody
  dsimp only
  refine ⟨?_, ?_, ?_⟩
  · rw [foldl_simRound_errors]
    rfl
  · have h := foldl_simRound_times_ge env (List.range 5) ⟨emptyJourney p g, 0, []⟩
    simp only [List.length_append, List.length_cons, List.length_nil]
    simp only [List.length_range] at h
    omega
  · set S := (List.range 5).foldl (fun st q => simRound env q st)
      ⟨emptyJourney p g, 0, []⟩ with hS
    have hg : S.j.goal = g := by
      rw [hS, foldl_simRound_goal]
      rfl
    refine ⟨S.j.questions, S.j.answers, ?_⟩
    rw [List.getLast?_concat, hg]

/-- C2 counterexample: after a run containing one fully successful
session, the reported success rate is `100`, not `1 / 1 = 1`, and it
does not lie in `[0, 1]` — the code multiplies the ratio by 100. -/
theorem success_rate_exceeds_unit_interval :
    (generateChaosReport
        (runTicks [[(simulateBody envOK ("p") ("g")).j]])).summary.success_rate = 100 ∧
    ¬ (generateChaosReport
        (runTicks [[(simulateBody envOK ("p") ("g")).j]])).summary.success_rate ≤ 1 := by
  have hs : (runTicks [[(simulateBody envOK ("p") ("g")).j]]).successful_journeys = 1 := by
    decide
  have ht : (runTicks [[(simulateBody envOK ("p") ("g")).j]]).total_users = 1 := by
    decide
  simp only [generateChaosReport]
  rw [hs, ht]
  norm_num

/-- C2 (amended): the reported success rate equals
`(successfulSessions / max(totalSessions, 1)) * 100`; whenever the
successful count does not exceed the total it lies in `[0, 100]`, and
with zero sessions it is `0` (a plain value, not an error). -/
theorem success_rate_percentage_bounds (r : Results)
    (h : r.successful_journeys ≤ r.total_users) :
    (generateChaosReport r).summary.success_rate =
      ((r.successful_journeys : ℚ) / (max r.total_users 1 : ℚ)) * 100 ∧
    0 ≤ (generateChaosReport r).summary.success_rate ∧
    (generateChaosReport r).summary.success_rate ≤ 100 ∧
    (r.total_users = 0 → (generateChaosReport r).summary.success_rate = 0) := by
  have hd : (0 : ℚ) < max (r.total_users : ℚ) 1 :=
    lt_of_lt_of_le one_pos (le_max_right _ _)
  have hnum : (r.successful_journeys : ℚ) ≤ max (r.total_users : ℚ) 1 :=
    le_trans (by exact_mod_cast h) (le_max_left _ _)
  refine ⟨rfl, ?_, ?_, ?_⟩
  · exact mul_nonneg (div_nonneg (Nat.cast_nonneg _) hd.le) (by norm_num)
  · calc (generateChaosReport r).summary.success_rate
        = ((r.successful_journeys : ℚ) / max (r.total_users : ℚ) 1) * 100 := rfl
      _ ≤ 1 * 100 :=
          mul_le_mul_of_nonneg_right ((div_le_one hd).mpr hnum) (by norm_num)
      _ = 100 := by norm_num
  · intro h0
    have hz : r.successful_journeys = 0 := by omega
    show ((r.successful_journeys : ℚ) / max (r.total_users : ℚ) 1) * 100 = 0
    rw [hz, h0]
    norm_num

/-- C2 witness: the amended bounds hold at the empty-run results. -/
theorem success_rate_percentage_bounds_witness :
    initResults.successful_journeys ≤ initResults.total_users ∧
    ((generateChaosReport initResults).summary.success_rate =
      ((initResults.successful_journeys : ℚ) / (max initResults.total_users 1 : ℚ)) * 100 ∧
    0 ≤ (generateChaosReport initResults).summary.success_rate ∧
    (generateChaosReport initResults).summary.success_rate ≤ 100 ∧
    (initResults.total_users = 0 →
      (generateChaosReport initResults).summary.success_rate = 0)) :=
  ⟨by decide, success_rate_percentage_bounds initResults (by decide)⟩

/-- C3: in a session where every API call succeeds (returns a truthy
dict), the completed trace records exactly 11 call timings, with 5
questions, 5 answers and 5 analyses recorded, and the 11 calls hit, in
order: the first-question endpoint, then alternating analysis and
next-question endpoints, ending with the final-roast endpoint —
5 question calls (rounds 2-5 via the next-question endpoint), 5
analysis calls and 1 final-summary call. -/
theorem clean_session_records_eleven_calls (env : Env) (p g : String)
    (hall : ∀ i, isTruthy (callApi (env.outcome i)) = true) :
    (simulateBody env p g).j.response_times.length = 11 ∧
    (simulateBody env p g).j.questions.length = 5 ∧
    (simulateBody env p g).j.answers.length = 5 ∧
    (simulateBody env p g).j.analyses.length = 5 ∧
    (simulateBody env p g).sent.map Payload.endpoint =
      [("generate-first-question"), ("analyze-answer-bro"),
       ("generate-next-question-bro"), ("analyze-answer-bro"),
       ("generate-next-question-bro"), ("analyze-answer-bro"),
       ("generate-next-question-bro"), ("analyze-answer-bro"),
       ("generate-next-question-bro"), ("analyze-answer-bro"),
       ("generate-final-roast")] := by
  have R : ∀ (q : Nat) (s : SimState),
      (simRound env q s).idx = s.idx + 2 ∧
      (simRound env q s).j.response_times.length = s.j.response_times.length + 2 ∧
      (simRound env q s).j.questions.length = s.j.questions.length + 1 ∧
      (simRound env q s).j.answers.length = s.j.answers.length + 1 ∧
      (simRound env q s).j.analyses.length = s.j.analyses.length + 1 ∧
      (simRound env q s).sent.map Payload.endpoint =
        s.sent.map Payload.endpoint ++
          [(if q = 0 then ("generate-first-question") else ("generate-next-question-bro")),
           ("analyze-answer-bro")] :=
    fun q s => simRound_of_truthy env q s (hall _) (hall _)
  unfold simulateBody
  dsimp only
  have hrange : List.range 5 = [0, 1, 2, 3, 4] := rfl
  rw [hrange]
  simp only [List.foldl_cons, List.foldl_nil]
  set s0 : SimState := ⟨emptyJourney p g, 0, []⟩ with hs0
  obtain ⟨i1, t1, q1, a1, n1, m1⟩ := R 0 s0
  set s1 := simRound env 0 s0 with hs1
  obtain ⟨i2, t2, q2, a2, n2, m2⟩ := R 1 s1
  set s2 := simRound env 1 s1 with hs2
  obtain ⟨i3, t3, q3, a3, n3, m3⟩ := R 2 s2
  set s3 := simRound env 2 s2 with hs3
  obtain ⟨i4, t4, q4, a4, n4, m4⟩ := R 3 s3
  set s4 := simRound env 3 s3 with hs4
  obtain ⟨i5, t5, q5, a5, n5, m5⟩ := R 4 s4
  set s5 := simRound env 4 s4 with hs5
  have b0t : s0.j.response_times.length = 0 := rfl
  have b0q : s0.j.questions.length = 0 := rfl
  have b0a : s0.j.answers.length = 0 := rfl
  have b0n : s0.j.analyses.length = 0 := rfl
  have b0m : s0.sent.map Payload.endpoint = [] := rfl
  refine ⟨?_, ?_, ?_, ?_, ?_⟩
  · simp only [List.length_append, List.length_cons, List.length_nil]
    omega
  · omega
  · omega
  · omega
  · rw [List.map_append, m5, m4, m3, m2, m1, b0m]
    simp [Payload.endpoint]

/-- C3 witness: against the healthy target `envOK` every call succeeds,
and the session records the 11 calls as claimed. -/
theorem clean_session_records_eleven_calls_witness :
    (∀ i, isTruthy (callApi (envOK.outcome i)) = true) ∧
    ((simulateBody envOK ("p") ("g")).j.response_times.length = 11 ∧
    (simulateBody envOK ("p") ("g")).j.questions.length = 5 ∧
    (simulateBody envOK ("p") ("g")).j.answers.length = 5 ∧
    (simulateBody envOK ("p") ("g")).j.analyses.length = 5 ∧
    (simulateBody envOK ("p") ("g")).sent.map Payload.endpoint =
      [("generate-first-question"), ("analyze-answer-bro"),
       ("generate-next-question-bro"), ("analyze-answer-bro"),
       ("generate-next-question-bro"), ("analyze-answer-bro"),
       ("generate-next-question-bro"), ("analyze-answer-bro"),
       ("generate-next-question-bro"), ("analyze-answer-bro"),
       ("generate-final-roast")]) :=
  ⟨fun _ => rfl,
   clean_session_records_eleven_calls envOK ("p") ("g") (fun _ => rfl)⟩

/-- C4: after any sequence of orchestrator ticks, the accumulated
successful count equals the number of recorded traces with an empty
error list, the failed count equals the number with a non-empty error
list, and the total equals successful plus failed. -/
theorem counts_partition_recorded_traces (batches : List (List JourneyData)) :
    (runTicks batches).successful_journeys =
      ((runTicks batches).user_journeys.filter fun j => j.errors.isEmpty).length ∧
    (runTicks batches).failed_journeys =
      ((runTicks batches).user_journeys.filter fun j => !j.errors.isEmpty).length ∧
    (runTicks batches).total_users =
      (runTicks batches).successful_journeys + (runTicks batches).failed_journeys :=
  foldl_processTick_partition batches initResults rfl rfl rfl

/-- C5: whichever way the loop of `run_chaos_test` ends — normal expiry
of the configured duration or an unexpected exception escaping the loop
— the run reaches the Finished state and the `finally` block generates
the report from the accumulated partial results (writing it to a file
is the ensuing I/O of that artifact); with zero sessions the generated
report is valid, with success rate 0, average response time 0, zero
users and a zero-length duration string. -/
theorem run_reaches_finished_and_reports (lo : LoopOutcome) :
    (runChaosTest lo).state = .finished ∧
    (runChaosTest lo).report = generateChaosReport lo.results ∧
    (runChaosTest (.normal initResults)).report.summary.success_rate = 0 ∧
    (runChaosTest (.normal initResults)).report.summary.avg_response_time = 0 ∧
    (runChaosTest (.normal initResults)).report.summary.total_users = 0 ∧
    (runChaosTest (.normal initResults)).report.summary.total_duration = "0 minutes" := by
  refine ⟨?_, ?_, ?_, ?_, rfl, rfl⟩
  · cases lo <;> rfl
  · cases lo <;> rfl
  · simp [runChaosTest, generateChaosReport, initResults]
  · simp [runChaosTest, generateChaosReport, initResults, calculateAvgResponseTime]

/-- C6 counterexample: a timeout exception and an HTTP 500 produce the
same return value, the empty dict — `_call_api` returns no `CallError`
value distinguishing Timeout, Transport or BadStatus kinds. -/
theorem call_error_kinds_indistinguishable :
    callApi (.exn ("TimeoutError")) = callApi (.status 500 [("detail", "oops")]) ∧
    callApi (.status 500 [("detail", "oops")]) = [] := by
  constructor <;> decide

/-- C6 (amended): for every transport outcome `_call_api` either returns
the parsed body of a 200 response or returns the empty dict — on non-2xx
status and on any raised exception alike it returns `{}` carrying no
error-kind information, and it never lets an exception escape to the
caller. -/
theorem call_api_returns_empty_on_failure (o : HttpOutcome) :
    (∃ b, rawRequest o = .ok (200, b) ∧ callApi o = b) ∨ callApi o = [] := by
  cases o with
  | status c b =>
      by_cases hc : c = 200
      · subst hc
        exact .inl ⟨b, rfl, rfl⟩
      · right
        simp only [callApi, rawRequest, if_neg hc]
  | exn m => exact .inr rfl

/-- C7 counterexample: with `users_per_minute = 10` and one detached
user-spike chaos action overlapping the tick, 60 session-simulator
tasks are in flight — more than the configured per-tick bound of 10,
refuting the claimed concurrency bound. -/
theorem user_spike_exceeds_tick_bound :
    (launchTick 10 1).inFlightSessions = 60 ∧
    (launchTick 10 1).batchTasks < (launchTick 10 1).inFlightSessions := by
  constructor <;> decide

/-- C7 (amended): the batch the orchestrator itself launches and awaits
per tick holds exactly `users_per_minute` session tasks, so the claimed
bound holds precisely when no detached `concurrent_user_spike` action
overlaps the tick; each active spike adds 50 extra concurrent session
tasks outside the awaited batch. -/
theorem in_flight_sessions_bound_iff_no_spike (upm spikes : Nat) :
    (launchTick upm spikes).batchTasks = upm ∧
    (launchTick upm spikes).inFlightSessions = upm + 50 * spikes ∧
    ((launchTick upm spikes).inFlightSessions ≤ (launchTick upm spikes).batchTasks ↔
      spikes = 0) := by
  refine ⟨rfl, rfl, ?_⟩
  simp only [launchTick, TickTasks.inFlightSessions]
  omega

/-- C8 counterexample: for a run with one all-successful session whose
11 calls each took 1 time unit while the session's wall clock was 20
time units, the reported average response time is 20 — the per-journey
mean of total session times — whereas the average over all individual
recorded calls is 1. -/
theorem avg_response_time_differs_from_per_call_mean :
    calculateAvgResponseTime [(simulateBody envOK ("p") ("g")).j] = 20 ∧
    specAvgOverAllCalls [(simulateBody envOK ("p") ("g")).j] = 1 ∧
    calculateAvgResponseTime [(simulateBody envOK ("p") ("g")).j] ≠
      specAvgOverAllCalls [(simulateBody envOK ("p") ("g")).j] := by
  have h1 : (simulateBody envOK ("p") ("g")).j.total_time = some 20 := rfl
  have h2 : (simulateBody envOK ("p") ("g")).j.response_times =
      [1, 1, 1, 1, 1, 1, 1, 1, 1, 1, 1] := rfl
  have hcode : calculateAvgResponseTime [(simulateBody envOK ("p") ("g")).j] = 20 := by
    simp [calculateAvgResponseTime, h1]
  have hspec : specAvgOverAllCalls [(simulateBody envOK ("p") ("g")).j] = 1 := by
    simp [specAvgOverAllCalls, h2]
    norm_num
  exact ⟨hcode, hspec, by rw [hcode, hspec]; norm_num⟩

/-- C8 (amended): the reported average response time is the mean over
journeys of each journey's recorded total time (`total_time`, taken as 0
when absent), divided by `max(number of journeys, 1)`; it is a function
of the journeys' totals only — erasing every per-call recorded time
leaves it unchanged. -/
theorem avg_response_time_is_mean_of_journey_totals (js : List JourneyData) :
    calculateAvgResponseTime js =
      (js.map (fun j => j.total_time.getD 0)).sum / (max js.length 1 : ℚ) ∧
    calculateAvgResponseTime (js.map (fun j => { j with response_times := [] })) =
      calculateAvgResponseTime js := by
  constructor
  · rfl
  · unfold calculateAvgResponseTime
    rw [List.map_map, List.length_map]
    rfl

/-- C9: every history payload a session sends to the target — including
every analyze-answer call and the final-summary call — carries question
and answer lists of equal length: each recorded question is paired with
a synthesized answer before the next call is issued. -/
theorem history_payloads_balanced (env : Env) (p g : String) :
    ∀ pay ∈ (simulateBody env p g).sent, pay.balanced := by
  unfold simulateBody
  dsimp only
  set S := (List.range 5).foldl (fun st q => simRound env q st)
    ⟨emptyJourney p g, 0, []⟩ with hS
  have hinv := foldl_simRound_balanced env (List.range 5)
    ⟨emptyJourney p g, 0, []⟩ rfl (by intro x hx; cases hx)
  rw [← hS] at hinv
  intro pay hp
  rcases List.mem_append.mp hp with h | h
  · exact hinv.2 pay h
  · rcases List.mem_singleton.mp h with rfl
    simpa [Payload.balanced] using hinv.1

/-- C9 witness: the first analyze-answer payload of a session against
the healthy target is among the sent payloads and is balanced. -/
theorem history_payloads_balanced_witness :
    Payload.analyzeAnswer ("g") (["Q"]) (["ans"]) ("ans") ∈
      (simulateBody envOK ("p") ("g")).sent ∧
    (Payload.analyzeAnswer ("g") (["Q"]) (["ans"]) ("ans")).balanced :=
  ⟨by decide,
   history_payloads_balanced envOK ("p") ("g")
     (Payload.analyzeAnswer ("g") (["Q"]) (["ans"]) ("ans")) (by decide)⟩

/-- C10: the session simulator is total at the orchestrator boundary —
an escaped exception is converted into a returned trace whose error list
is non-empty — and the tick accounting counts every returned trace in
exactly one of the totals: processing a batch of session outcomes adds
the batch's size to `total_users`, and `total_users` stays equal to
`successful_journeys + failed_journeys`. -/
theorem session_always_returns_trace_counted_once (outs : List BodyOutcome)
    (r : Results)
    (h : r.total_users = r.successful_journeys + r.failed_journeys) :
    (∀ e pd, (handleSession (.raises e pd)).errors ≠ []) ∧
    (processTick r (outs.map handleSession)).total_users = r.total_users + outs.length ∧
    (processTick r (outs.map handleSession)).total_users =
      (processTick r (outs.map handleSession)).successful_journeys +
        (processTick r (outs.map handleSession)).failed_journeys := by
  refine ⟨?_, ?_, processTick_sum r _ h⟩
  · intro e pd
    simp [handleSession]
  · rw [processTick_total, List.length_map]

/-- C10 witness: one raising session outcome processed from the initial
results is converted to a trace and counted exactly once. -/
theorem session_always_returns_trace_counted_once_witness :
    initResults.total_users =
      initResults.successful_journeys + initResults.failed_journeys ∧
    ((∀ e pd, (handleSession (.raises e pd)).errors ≠ []) ∧
    (processTick initResults
        ([BodyOutcome.raises ("boom") (emptyJourney ("p") ("g"))].map handleSession)).total_users
      = initResults.total_users +
          [BodyOutcome.raises ("boom") (emptyJourney ("p") ("g"))].length ∧
    (processTick initResults
        ([BodyOutcome.raises ("boom") (emptyJourney ("p") ("g"))].map handleSession)).total_users
      = (processTick initResults
          ([BodyOutcome.raises ("boom") (emptyJourney ("p") ("g"))].map
            handleSession)).successful_journeys +
        (processTick initResults
          ([BodyOutcome.raises ("boom") (emptyJourney ("p") ("g"))].map
            handleSession)).failed_journeys) :=
  ⟨rfl,
   session_always_returns_trace_counted_once
     [BodyOutcome.raises ("boom") (emptyJourney ("p") ("g"))] initResults rfl⟩

end ChaosEngine
